import Mathlib

/-
Shallow embedding of the latex-mcp server (src/server.py).

Strings are modelled as `List Char`, PNG byte strings as `List Nat`.
The matplotlib rendering backend (figure drawing and PNG serialisation) is an
external collaborator of the program; it is modelled as an oracle of type
`Renderer`, mapping the fully assembled figure description (the exact data the
code hands to matplotlib: text block or stacked rows, colors, dpi, font size,
canvas size, padding) to either PNG bytes or a raised exception message.
Everything the Python file computes itself (delimiter stripping, text
assembly, row construction, base64, JSON envelopes, size reporting,
validation bounds declared on the pydantic models) is embedded directly.
-/

set_option autoImplicit false

-- ── Python string helpers ─────────────────────────────────────────────────────

/-- The whitespace characters removed by Python `str.strip()` (ASCII range). -/
def pyIsSpace (c : Char) : Bool :=
  c == ' ' || c == '\t' || c == '\n' || c == '\r' || c == '\x0b' || c == '\x0c'

/-- Python `str.lstrip()`. -/
def lstrip (l : List Char) : List Char := l.dropWhile pyIsSpace

/-- Python `str.rstrip()`. -/
def rstrip (l : List Char) : List Char := (l.reverse.dropWhile pyIsSpace).reverse

/-- Python `str.strip()`. -/
def pyStrip (l : List Char) : List Char := rstrip (lstrip l)

/-- Python slice `l[: len l - n]` (clamped), used for `[2:-2]` and `[1:-1]`. -/
def pyDropLast (n : Nat) (l : List Char) : List Char := l.take (l.length - n)

/-- Python `s.split("\n")`: split on every newline, keeping empty segments. -/
def splitOnNl : List Char → List (List Char)
  | [] => [[]]
  | c :: rest =>
    match splitOnNl rest with
    | [] => [[]]
    | seg :: segs => if c == '\n' then [] :: seg :: segs else (c :: seg) :: segs

/-- Substring containment, Python `needle in hay`. -/
def substrOf (needle hay : List Char) : Bool :=
  (List.range (hay.length + 1)).any (fun i => needle.isPrefixOf (hay.drop i))

-- ── Constants from the source ─────────────────────────────────────────────────

def DEFAULT_DPI : Int := 150
def DEFAULT_FONT_SIZE : Int := 14
def MAX_LATEX_LENGTH : Nat := 10000

def twoDollars : List Char := "$$".data
def oneDollar : List Char := "$".data

-- ── _strip_outer_delimiters ───────────────────────────────────────────────────

/-- `_strip_outer_delimiters`: remove surrounding `$$` or `$` if the whole
(stripped) string is wrapped in them. -/
def strip_outer_delimiters (latex : List Char) : List Char :=
  let t := pyStrip latex
  if twoDollars.isPrefixOf t && twoDollars.isSuffixOf t then
    pyStrip (pyDropLast 2 (t.drop 2))
  else if oneDollar.isPrefixOf t && oneDollar.isSuffixOf t && decide (2 < t.length) then
    pyStrip (pyDropLast 1 (t.drop 1))
  else t

-- ── Text assembly inside _render_latex_to_png ─────────────────────────────────

/-- One line of the joined text block: wrap stripped non-empty, non-comment
lines in `$ ... $`, leave other lines as they are. -/
def lineToMath (line : List Char) : List Char :=
  let ls := pyStrip line
  if !ls.isEmpty && !(ls.head? == some '#') then
    '$' :: strip_outer_delimiters ls ++ ['$']
  else line

/-- The `rendered_text` string handed to `fig.text` by `_render_latex_to_png`:
strip, split into lines, mathify each line, re-join with newlines. -/
def renderedText (latex : List Char) : List Char :=
  List.intercalate ['\n'] ((splitOnNl (pyStrip latex)).map lineToMath)

-- ── Theme ─────────────────────────────────────────────────────────────────────

inductive Theme where
  | light : Theme
  | dark : Theme

def colorDarkBg : List Char := "#1e1e2e".data
def colorDarkText : List Char := "#cdd6f4".data
def colorWhite : List Char := "white".data
def colorBlack : List Char := "black".data

/-- `_apply_theme`: (bg_color, text_color) for the theme. -/
def apply_theme : Theme → List Char × List Char
  | Theme.dark => (colorDarkBg, colorDarkText)
  | Theme.light => (colorWhite, colorBlack)

-- ── Figure descriptions handed to matplotlib ──────────────────────────────────

/-- One row (one axes) of a stacked multi-block figure: the text drawn at its
center and the color it is drawn in. -/
structure RowSpec where
  text : List Char
  color : List Char

/-- What the code asks matplotlib to draw: either a single centered text block
(`_render_latex_to_png`) or `n` stacked rows on a sized canvas
(`_render_multiblock`). -/
inductive FigSpec where
  | single (text : List Char) (color : List Char) (padding : ℚ) : FigSpec
  | stacked (width height : ℚ) (rows : List RowSpec) : FigSpec

/-- A complete render request to the matplotlib collaborator. -/
structure MplCall where
  fig : FigSpec
  dpi : Int
  font_size : Int
  bg_color : List Char

/-- The external renderer: returns PNG bytes or raises (error message). -/
abbrev Renderer := MplCall → Except (List Char) (List Nat)

/-- `_render_latex_to_png`: assemble the text block and invoke matplotlib. -/
def render_latex_to_png (oracle : Renderer) (latex : List Char)
    (dpi font_size : Int) (bg_color text_color : List Char) (padding : ℚ) :
    Except (List Char) (List Nat) :=
  oracle { fig := FigSpec.single (renderedText latex) text_color padding,
           dpi := dpi, font_size := font_size, bg_color := bg_color }

-- ── _render_multiblock ────────────────────────────────────────────────────────

/-- A solution step dict as accessed by the code: optional string values under
the keys `label` and `latex` (absent key modelled as `none`; `dict.get`
with default `""` is `Option.getD []`). -/
structure Block where
  label : Option (List Char)
  latex : Option (List Char)

def mathbfOpen : List Char := "\\mathbf\x7b".data
def mathbfCloseNl : List Char := "\x7d\n".data

/-- The `full_text` drawn for one block:
`\mathbf{label}` + newline + `$stripped$`, or just `$stripped$` when the
label is empty/absent. -/
def blockFullText (b : Block) : List Char :=
  let label := b.label.getD []
  let stripped := strip_outer_delimiters (b.latex.getD [])
  if !label.isEmpty then
    mathbfOpen ++ label ++ mathbfCloseNl ++ '$' :: stripped ++ ['$']
  else '$' :: stripped ++ ['$']

/-- The row drawn on one axes: every row uses the same `text_color`. -/
def mkRow (text_color : List Char) (b : Block) : RowSpec :=
  { text := blockFullText b, color := text_color }

/-- The rows of the stacked figure: `zip(axes, blocks)` over the `n` axes
created by `plt.subplots(n, 1)`. -/
def multiblockRows (blocks : List Block) (text_color : List Char) : List RowSpec :=
  ((List.range blocks.length).zip blocks).map (fun pr => mkRow text_color pr.2)

/-- The figure `_render_multiblock` builds: canvas `figsize=(8, 2.5 * n)` with
one row per block. -/
def render_multiblock_call (blocks : List Block) (dpi font_size : Int)
    (bg_color text_color : List Char) : MplCall :=
  { fig := FigSpec.stacked 8 ((5 / 2 : ℚ) * blocks.length) (multiblockRows blocks text_color),
    dpi := dpi, font_size := font_size, bg_color := bg_color }

/-- `_render_multiblock`: build the stacked figure and invoke matplotlib. -/
def render_multiblock (oracle : Renderer) (blocks : List Block)
    (dpi font_size : Int) (bg_color text_color : List Char) :
    Except (List Char) (List Nat) :=
  oracle (render_multiblock_call blocks dpi font_size bg_color text_color)

-- ── base64 and data URIs ──────────────────────────────────────────────────────

def b64Alphabet : List Char :=
  "ABCDEFGHIJKLMNOPQRSTUVWXYZabcdefghijklmnopqrstuvwxyz0123456789+/".data

def b64Char (n : Nat) : Char := b64Alphabet.getD n '='

/-- RFC 4648 base64 of a byte string (Python `base64.b64encode`). -/
def base64Encode : List Nat → List Char
  | [] => []
  | [a] => [b64Char (a / 4 % 64), b64Char (a % 4 * 16), '=', '=']
  | [a, b] => [b64Char (a / 4 % 64), b64Char (a % 4 * 16 + b / 16), b64Char (b % 16 * 4), '=']
  | a :: b :: c :: rest =>
    b64Char (a / 4 % 64) :: b64Char (a % 4 * 16 + b / 16) ::
      b64Char (b % 16 * 4 + c / 64) :: b64Char (c % 64) :: base64Encode rest

def dataUriPre : List Char := "data:image/png;base64,".data

/-- `_png_to_base64_uri`. -/
def png_to_base64_uri (png : List Nat) : List Char := dataUriPre ++ base64Encode png

/-- `_png_to_base64`. -/
def png_to_base64 (png : List Nat) : List Char := base64Encode png

-- ── Rounding and size reporting ───────────────────────────────────────────────

/-- Round to nearest integer, ties to even (Python `round`). -/
def roundHalfEven (q : ℚ) : ℤ :=
  if q - ⌊q⌋ < 1 / 2 then ⌊q⌋
  else if 1 / 2 < q - ⌊q⌋ then ⌊q⌋ + 1
  else if ⌊q⌋ % 2 = 0 then ⌊q⌋ else ⌊q⌋ + 1

/-- `round(len(png_bytes) / 1024, 1)`: the `size_kb` value placed in the
success responses. -/
def sizeKbReported (n : Nat) : ℚ := (roundHalfEven ((n : ℚ) * 10 / 1024) : ℚ) / 10

/-- Python `f"{q:.1f}"` for the non-negative sizes used in messages. -/
def fmt1 (q : ℚ) : List Char :=
  let k := (roundHalfEven (q * 10)).toNat
  Nat.toDigits 10 (k / 10) ++ '.' :: Nat.toDigits 10 (k % 10)

-- ── JSON envelopes ────────────────────────────────────────────────────────────

/-- JSON values appearing in the response objects of the three tools. -/
inductive JVal where
  | null : JVal
  | jbool : Bool → JVal
  | jnum : ℚ → JVal
  | jstr : List Char → JVal
  | jarr : List JVal → JVal

/-- A JSON object in insertion order, as passed to `json.dumps`. -/
abbrev Response := List (List Char × JVal)

/-- Key lookup in a response object. -/
def jget (resp : Response) (key : List Char) : Option JVal :=
  match resp with
  | [] => none
  | (k, v) :: rest => if k == key then some v else jget rest key

def kSuccess : List Char := "success".data
def kDataUri : List Char := "data_uri".data
def kBase64 : List Char := "base64".data
def kWidthHint : List Char := "width_hint".data
def kSizeKb : List Char := "size_kb".data
def kMessage : List Char := "message".data
def kStepCount : List Char := "step_count".data
def kValid : List Char := "valid".data
def kWarnings : List Char := "warnings".data
def kErrors : List Char := "errors".data
def kSuggestion : List Char := "suggestion".data

-- ── Validated inputs and pydantic validation ──────────────────────────────────

/-- A `RenderLatexInput` that passed validation. -/
structure RenderLatexInput where
  latex : List Char
  theme : Theme
  dpi : Int
  font_size : Int

/-- The raw field values of a render_latex request, before validation. -/
structure RawRenderLatexInput where
  latex : List Char
  theme : Theme
  dpi : Int
  font_size : Int

/-- A raw element of the `steps` list: either not a dict at all, or a dict
with its optional `label` and `latex` string entries. -/
inductive RawStep where
  | notDict : RawStep
  | aDict : Block → RawStep

/-- The raw field values of a render_solution request, before validation. -/
structure RawRenderSolutionInput where
  steps : List RawStep
  theme : Theme
  dpi : Int
  font_size : Int

/-- A `RenderSolutionInput` that passed validation. -/
structure RenderSolutionInput where
  steps : List Block
  theme : Theme
  dpi : Int
  font_size : Int

def errLatexLength : List Char := "String should have at least 1 character".data
def errLatexTooLong : List Char := "String should have at most 10000 characters".data
def errLatexBlank : List Char := "LaTeX expression cannot be empty or whitespace only.".data
def errDpiRange : List Char := "dpi out of range 72-300".data
def errFontRange : List Char := "font_size out of range 8-32".data
def errStepsRange : List Char := "steps list must have between 1 and 20 items".data
def errStepNotDict : List Char := "Step must be a dict with \x27label\x27 and \x27latex\x27 keys.".data
def errStepNoLatex : List Char := "Step is missing required \x27latex\x27 key.".data

/-- Pydantic validation of `RenderLatexInput`:
`str_strip_whitespace=True` strips the string, then `min_length=1`,
`max_length=10000` are checked on the stripped value, then the custom
`validate_latex` validator runs; `dpi` and `font_size` carry `ge`/`le`
bounds. -/
def parseRenderLatexInput (raw : RawRenderLatexInput) :
    Except (List Char) RenderLatexInput :=
  let v := pyStrip raw.latex
  if v.length < 1 then Except.error errLatexLength
  else if MAX_LATEX_LENGTH < v.length then Except.error errLatexTooLong
  else if (pyStrip v).isEmpty then Except.error errLatexBlank
  else if raw.dpi < 72 || 300 < raw.dpi then Except.error errDpiRange
  else if raw.font_size < 8 || 32 < raw.font_size then Except.error errFontRange
  else Except.ok { latex := v, theme := raw.theme, dpi := raw.dpi, font_size := raw.font_size }

/-- Validation of one element of `steps`: it must be a dict and must carry a
`latex` key (`list[dict]` coercion plus the `validate_steps` validator). -/
def parseStep : RawStep → Except (List Char) Block
  | RawStep.notDict => Except.error errStepNotDict
  | RawStep.aDict b =>
    match b.latex with
    | none => Except.error errStepNoLatex
    | some _ => Except.ok b

/-- Validate the whole `steps` list elementwise. -/
def parseSteps : List RawStep → Except (List Char) (List Block)
  | [] => Except.ok []
  | st :: rest =>
    match parseStep st with
    | Except.error e => Except.error e
    | Except.ok b =>
      match parseSteps rest with
      | Except.error e => Except.error e
      | Except.ok bs => Except.ok (b :: bs)

/-- Pydantic validation of `RenderSolutionInput`: `min_length=1`,
`max_length=20` on the list, elementwise dict/`latex`-key checks, and the
`ge`/`le` bounds on `dpi` and `font_size`. -/
def parseRenderSolutionInput (raw : RawRenderSolutionInput) :
    Except (List Char) RenderSolutionInput :=
  if raw.steps.length < 1 then Except.error errStepsRange
  else if 20 < raw.steps.length then Except.error errStepsRange
  else
    match parseSteps raw.steps with
    | Except.error e => Except.error e
    | Except.ok blocks =>
      if raw.dpi < 72 || 300 < raw.dpi then Except.error errDpiRange
      else if raw.font_size < 8 || 32 < raw.font_size then Except.error errFontRange
      else Except.ok { steps := blocks, theme := raw.theme, dpi := raw.dpi, font_size := raw.font_size }

-- ── The render_latex tool ─────────────────────────────────────────────────────

def v600px : List Char := "600px".data

def msgLatexOkPre : List Char := "LaTeX rendered successfully (".data
def msgLatexOkPost : List Char :=
  " KB PNG). Use \x27data_uri\x27 to embed in HTML or \x27base64\x27 to attach as image.".data
def msgFailPre : List Char := "Rendering failed: ".data
def msgLatexFailPost : List Char :=
  ". Check that your LaTeX syntax is valid. Note: this server uses matplotlib mathtext — most standard LaTeX math is supported, but some advanced packages (tikz, chemfig) are not.".data

def msgRenderLatexOk (n : Nat) : List Char :=
  msgLatexOkPre ++ fmt1 ((n : ℚ) / 1024) ++ msgLatexOkPost

def msgRenderLatexErr (e : List Char) : List Char := msgFailPre ++ e ++ msgLatexFailPost

/-- The matplotlib call made by the `render_latex` tool: theme colors applied,
default padding 0.3. -/
def render_latex_call (p : RenderLatexInput) : MplCall :=
  let bt := apply_theme p.theme
  { fig := FigSpec.single (renderedText p.latex) bt.2 (3 / 10 : ℚ),
    dpi := p.dpi, font_size := p.font_size, bg_color := bt.1 }

/-- The `render_latex` tool body: one render attempt inside `try`, success
envelope on ok, failure envelope on exception. Also returns the list of
render attempts made. -/
def render_latex (oracle : Renderer) (p : RenderLatexInput) :
    Response × List MplCall :=
  let call := render_latex_call p
  match oracle call with
  | Except.ok png =>
    ([(kSuccess, JVal.jbool true),
      (kDataUri, JVal.jstr (png_to_base64_uri png)),
      (kBase64, JVal.jstr (png_to_base64 png)),
      (kWidthHint, JVal.jstr v600px),
      (kSizeKb, JVal.jnum (sizeKbReported png.length)),
      (kMessage, JVal.jstr (msgRenderLatexOk png.length))], [call])
  | Except.error e =>
    ([(kSuccess, JVal.jbool false),
      (kDataUri, JVal.null),
      (kBase64, JVal.null),
      (kMessage, JVal.jstr (msgRenderLatexErr e))], [call])

-- ── The render_solution tool ──────────────────────────────────────────────────

def msgSolOkMid : List Char := " steps rendered (".data
def msgSolOkPre : List Char := "Solution with ".data
def msgSolOkPost : List Char := " KB). Send the base64 PNG as an image attachment.".data
def msgSolFailPost : List Char := ". Verify each step has a valid \x27latex\x27 field.".data

def msgRenderSolutionOk (steps sz : Nat) : List Char :=
  msgSolOkPre ++ Nat.toDigits 10 steps ++ msgSolOkMid ++ fmt1 ((sz : ℚ) / 1024) ++ msgSolOkPost

def msgRenderSolutionErr (e : List Char) : List Char := msgFailPre ++ e ++ msgSolFailPost

/-- The matplotlib call made by the `render_solution` tool. -/
def render_solution_call (p : RenderSolutionInput) : MplCall :=
  let bt := apply_theme p.theme
  render_multiblock_call p.steps p.dpi p.font_size bt.1 bt.2

/-- The `render_solution` tool body. -/
def render_solution (oracle : Renderer) (p : RenderSolutionInput) :
    Response × List MplCall :=
  let call := render_solution_call p
  match oracle call with
  | Except.ok png =>
    ([(kSuccess, JVal.jbool true),
      (kDataUri, JVal.jstr (png_to_base64_uri png)),
      (kBase64, JVal.jstr (png_to_base64 png)),
      (kStepCount, JVal.jnum (p.steps.length : ℚ)),
      (kSizeKb, JVal.jnum (sizeKbReported png.length)),
      (kMessage, JVal.jstr (msgRenderSolutionOk p.steps.length png.length))], [call])
  | Except.error e =>
    ([(kSuccess, JVal.jbool false),
      (kDataUri, JVal.null),
      (kBase64, JVal.null),
      (kStepCount, JVal.jnum 0),
      (kMessage, JVal.jstr (msgRenderSolutionErr e))], [call])

-- ── The check_latex_syntax tool ───────────────────────────────────────────────

def msgEmptyExpr : List Char := "Empty expression.".data
def msgTooLongPre : List Char := "Expression too long (".data
def msgTooLongPost : List Char := " chars, max 10000).".data
def msgUnbalanced : List Char :=
  "Unbalanced $ delimiters — ensure math is wrapped in matching $ or $$.".data
def msgUnsupportedPost : List Char :=
  "\x27 is not supported by matplotlib mathtext. Use standard math LaTeX only.".data
def msgFracWarning : List Char :=
  "\\frac requires two arguments in braces: \\frac\x7bnumerator\x7d\x7bdenominator\x7d".data
def msgBackslashWarning : List Char :=
  "Backslash detected but no recognized LaTeX commands found. Verify command names.".data
def msgRenderTestPre : List Char := "Render test failed: ".data

def envTikz : List Char := "\\begin\x7btikzpicture\x7d".data
def envUsepackage : List Char := "\\usepackage".data
def envDocumentclass : List Char := "\\documentclass".data
def envChemfig : List Char := "\\chemfig".data

def unsupportedEnvs : List (List Char) := [envTikz, envUsepackage, envDocumentclass, envChemfig]

def cmdFrac : List Char := "\\frac".data
def cmdSqrt : List Char := "\\sqrt".data
def cmdInt : List Char := "\\int".data
def cmdSum : List Char := "\\sum".data
def cmdProd : List Char := "\\prod".data
def cmdLim : List Char := "\\lim".data
def cmdText : List Char := "\\text".data

def knownCmds : List (List Char) := [cmdFrac, cmdSqrt, cmdInt, cmdSum, cmdProd, cmdLim, cmdText]

def greekAlpha : List Char := "alpha".data
def greekBeta : List Char := "beta".data
def greekGamma : List Char := "gamma".data
def greekDelta : List Char := "delta".data
def greekEpsilon : List Char := "epsilon".data
def greekTheta : List Char := "theta".data
def greekLambda : List Char := "lambda".data
def greekMu : List Char := "mu".data
def greekPi : List Char := "pi".data
def greekSigma : List Char := "sigma".data
def greekOmega : List Char := "omega".data

def greekNames : List (List Char) :=
  [greekAlpha, greekBeta, greekGamma, greekDelta, greekEpsilon, greekTheta,
   greekLambda, greekMu, greekPi, greekSigma, greekOmega]

def isWordChar (c : Char) : Bool := c.isAlphanum || c == '_'

/-- Does `\name` match at position `i` of `latex` with a regex word boundary
after it (model of `re.search(r"\\(alpha|...)\b", latex)` at one spot)? -/
def greekAt (latex g : List Char) (i : Nat) : Bool :=
  ('\\' :: g).isPrefixOf (latex.drop i) &&
    (match (latex.drop (i + 1 + g.length)).head? with
     | none => true
     | some c => !isWordChar c)

/-- Model of the greek-letter regex search. -/
def hasGreekCmd (latex : List Char) : Bool :=
  (List.range latex.length).any (fun i => greekNames.any (fun g => greekAt latex g i))

/-- The fixed response returned for empty / whitespace-only input. -/
def checkEmptyResponse : Response :=
  [(kValid, JVal.jbool false),
   (kWarnings, JVal.jarr []),
   (kErrors, JVal.jarr [JVal.jstr msgEmptyExpr]),
   (kSuggestion, JVal.null)]

/-- The errors list accumulated before the dry-run render. -/
def checkErrorsPre (latex : List Char) : List (List Char) :=
  (if MAX_LATEX_LENGTH < latex.length then
      [msgTooLongPre ++ Nat.toDigits 10 latex.length ++ msgTooLongPost]
    else []) ++
  (if latex.count '$' % 2 ≠ 0 then [msgUnbalanced] else []) ++
  ((unsupportedEnvs.filter (fun env => substrOf env latex)).map
    (fun env => '\x27' :: env ++ msgUnsupportedPost))

/-- The warnings list. -/
def checkWarnings (latex : List Char) : List (List Char) :=
  (if substrOf cmdFrac latex && !latex.contains '\x7b' then [msgFracWarning] else []) ++
  (if hasGreekCmd latex then []
    else if substrOf ['\\'] latex && !(knownCmds.any (fun c => substrOf c latex)) then
      [msgBackslashWarning]
    else [])

/-- The dry-run render call: `_render_latex_to_png(latex, dpi=72, font_size=12)`
with the remaining defaults (white background, black text, padding 0.3). -/
def check_call (latex : List Char) : MplCall :=
  { fig := FigSpec.single (renderedText latex) colorBlack (3 / 10 : ℚ),
    dpi := 72, font_size := 12, bg_color := colorWhite }

/-- The `check_latex_syntax` tool body (named with a `_tool` suffix). -/
def check_latex_syntax_tool (oracle : Renderer) (latex : List Char) :
    Response × List MplCall :=
  if latex.isEmpty || (pyStrip latex).isEmpty then (checkEmptyResponse, [])
  else
    let errs := checkErrorsPre latex
    let warns := checkWarnings latex
    let call := check_call latex
    match oracle call with
    | Except.ok _ =>
      ([(kValid, JVal.jbool errs.isEmpty),
        (kWarnings, JVal.jarr (warns.map JVal.jstr)),
        (kErrors, JVal.jarr (errs.map JVal.jstr)),
        (kSuggestion, JVal.null)], [call])
    | Except.error e =>
      ([(kValid, JVal.jbool false),
        (kWarnings, JVal.jarr (warns.map JVal.jstr)),
        (kErrors, JVal.jarr ((errs ++ [msgRenderTestPre ++ e]).map JVal.jstr)),
        (kSuggestion, JVal.null)], [call])

-- ── Endpoints: validation before the tool body runs ───────────────────────────

/-- The render_latex endpoint: pydantic validation happens before the tool is
invoked; a validation failure is reported by the framework and no render
call is made. -/
def endpointRenderLatex (oracle : Renderer) (raw : RawRenderLatexInput) :
    Except (List Char) Response × List MplCall :=
  match parseRenderLatexInput raw with
  | Except.error e => (Except.error e, [])
  | Except.ok p =>
    let rc := render_latex oracle p
    (Except.ok rc.1, rc.2)

/-- The render_solution endpoint. -/
def endpointRenderSolution (oracle : Renderer) (raw : RawRenderSolutionInput) :
    Except (List Char) Response × List MplCall :=
  match parseRenderSolutionInput raw with
  | Except.error e => (Except.error e, [])
  | Except.ok p =>
    let rc := render_solution oracle p
    (Except.ok rc.1, rc.2)

-- ── Server state: statelessness of the tools ──────────────────────────────────

/-- A request to one of the three tools (already validated where the framework
validates). -/
inductive ToolRequest where
  | renderLatex (p : RenderLatexInput) : ToolRequest
  | renderSolution (p : RenderSolutionInput) : ToolRequest
  | checkSyntaxReq (latex : List Char) : ToolRequest

/-- The only module-level mutable state the process carries across calls:
the global figure registry of matplotlib (figures leak when `savefig` raises,
since `plt.close` is skipped) and the logging output. Neither is ever read
by the tools. -/
structure ServerState where
  openFigures : Nat
  logLines : Nat

def initialServerState : ServerState := { openFigures := 0, logLines := 0 }

/-- Dispatch a request to the tool bodies (pure in the oracle). -/
def dispatch (oracle : Renderer) : ToolRequest → Response × List MplCall
  | ToolRequest.renderLatex p => render_latex oracle p
  | ToolRequest.renderSolution p => render_solution oracle p
  | ToolRequest.checkSyntaxReq latex => check_latex_syntax_tool oracle latex

/-- Did this matplotlib call raise? (then its figure is never closed). -/
def callFailed (oracle : Renderer) (c : MplCall) : Bool :=
  match oracle c with
  | Except.error _ => true
  | Except.ok _ => false

/-- Logging volume of one request (two logger calls per render tool). -/
def logCount : ToolRequest → Nat
  | ToolRequest.renderLatex _ => 2
  | ToolRequest.renderSolution _ => 2
  | ToolRequest.checkSyntaxReq _ => 0

/-- Handle one request: produce the response and the updated process state. -/
def handleRequest (oracle : Renderer) (s : ServerState) (r : ToolRequest) :
    Response × ServerState :=
  let rc := dispatch oracle r
  (rc.1,
   { openFigures := s.openFigures + (rc.2.filter (callFailed oracle)).length,
     logLines := s.logLines + logCount r })

/-- Handle a list of requests sequentially, threading the process state. -/
def processSeq (oracle : Renderer) (s : ServerState) :
    List ToolRequest → List Response
  | [] => []
  | r :: rs =>
    let rc := handleRequest oracle s r
    rc.1 :: processSeq oracle rc.2 rs

-- ── Concrete fixtures for witnesses and counterexamples ───────────────────────

/-- A steps entry violating the elementwise validation: not a dict, or no
latex key. -/
def badStep : RawStep → Bool
  | RawStep.notDict => true
  | RawStep.aDict b => b.latex.isNone

def msgBoom : List Char := "boom".data

/-- A renderer that always raises. -/
def oracleBoom : Renderer := fun _ => Except.error msgBoom

def pngBytes51 : List Nat := List.replicate 51 0

def pngBytes100 : List Nat := List.replicate 100 0

/-- A renderer that always returns a 51-byte blob. -/
def oracle51 : Renderer := fun _ => Except.ok pngBytes51

/-- A renderer that always returns a 100-byte blob. -/
def oracle100 : Renderer := fun _ => Except.ok pngBytes100

def inputX : RenderLatexInput :=
  { latex := ['x'], theme := Theme.light, dpi := 150, font_size := 14 }

def lblStep1 : List Char := "Step 1".data
def lblAnswer : List Char := "Answer".data

def blockStep1 : Block := { label := some lblStep1, latex := some ['x'] }
def blockAnswer : Block := { label := some lblAnswer, latex := some ['y'] }

def inputSolution : RenderSolutionInput :=
  { steps := [blockStep1, blockAnswer], theme := Theme.light, dpi := 150, font_size := 14 }

def rawBadDpi : RawRenderLatexInput :=
  { latex := ['x'], theme := Theme.light, dpi := 0, font_size := 14 }

def rawNoSteps : RawRenderSolutionInput :=
  { steps := [], theme := Theme.light, dpi := 150, font_size := 14 }

def rawOversized : RawRenderLatexInput :=
  { latex := List.replicate 10000 'a' ++ [' '], theme := Theme.light, dpi := 150, font_size := 14 }

def latexUnbalanced : List Char := ['$', 'x']

-- ── Helper lemmas: pyStrip on delimiter-wrapped strings ───────────────────────

lemma pyIsSpace_dollar : pyIsSpace '$' = false := by decide

lemma dropWhile_cons_nonspace (c : Char) (l : List Char) (h : pyIsSpace c = false) :
    (c :: l).dropWhile pyIsSpace = c :: l := by
  simp [List.dropWhile_cons, h]

/-- A string that starts and ends with a non-space character is unchanged by
`pyStrip`. -/
lemma pyStrip_wrap (c d : Char) (xs : List Char)
    (hc : pyIsSpace c = false) (hd : pyIsSpace d = false) :
    pyStrip (c :: xs ++ [d]) = c :: xs ++ [d] := by
  unfold pyStrip lstrip rstrip
  rw [show (c :: xs ++ [d]) = c :: (xs ++ [d]) by simp]
  rw [dropWhile_cons_nonspace c (xs ++ [d]) hc]
  rw [show (c :: (xs ++ [d])).reverse = d :: (xs.reverse ++ [c]) by simp]
  rw [dropWhile_cons_nonspace d (xs.reverse ++ [c]) hd]
  simp

lemma pyStrip_dollar_wrap (xs : List Char) :
    pyStrip ('$' :: xs ++ ['$']) = '$' :: xs ++ ['$'] :=
  pyStrip_wrap '$' '$' xs pyIsSpace_dollar pyIsSpace_dollar

-- prefix/suffix helpers

lemma isPrefixOf_cons_false (c : Char) (cs u : List Char) (h : u.head? ≠ some c) :
    ((c :: cs).isPrefixOf u) = false := by
  cases u with
  | nil => rfl
  | cons a as =>
    simp only [List.head?_cons, ne_eq, Option.some.injEq] at h
    simp [List.isPrefixOf, beq_eq_false_iff_ne, Ne.symm h]

lemma isSuffixOf_append_false (c : Char) (cs u : List Char) (h : u.getLast? ≠ some c) :
    ((cs ++ [c]).isSuffixOf u) = false := by
  unfold List.isSuffixOf
  rw [show (cs ++ [c]).reverse = c :: cs.reverse by simp]
  apply isPrefixOf_cons_false
  rw [List.head?_reverse]
  exact h

lemma strip_outer_part1 (s : List Char) (_hs : '$' ∉ s) :
    strip_outer_delimiters ('$' :: '$' :: s ++ twoDollars) = pyStrip s := by
  have hshape : ('$' :: '$' :: s ++ twoDollars) = '$' :: ('$' :: s ++ ['$']) ++ ['$'] := by
    simp [twoDollars]
  have hps : pyStrip ('$' :: '$' :: s ++ twoDollars) = '$' :: '$' :: s ++ twoDollars := by
    rw [hshape, pyStrip_dollar_wrap]
  unfold strip_outer_delimiters
  rw [hps]
  have hpre : (twoDollars.isPrefixOf ('$' :: '$' :: s ++ twoDollars)) = true := by
    simp [twoDollars, List.isPrefixOf]
  have hsuf : (twoDollars.isSuffixOf ('$' :: '$' :: s ++ twoDollars)) = true := by
    unfold List.isSuffixOf
    rw [show ('$' :: '$' :: s ++ twoDollars).reverse = '$' :: '$' :: (s.reverse ++ ['$', '$']) by
      simp [twoDollars]]
    simp [twoDollars, List.isPrefixOf]
  rw [if_pos (by rw [hpre, hsuf]; rfl)]
  have hdrop : ('$' :: '$' :: s ++ twoDollars).drop 2 = s ++ ['$', '$'] := by
    simp [twoDollars]
  rw [hdrop]
  have htake : pyDropLast 2 (s ++ ['$', '$']) = s := by
    unfold pyDropLast
    rw [show (s ++ ['$', '$']).length - 2 = s.length by simp]
    exact List.take_left s ['$', '$']
  rw [htake]

lemma strip_outer_part2 (s : List Char) (hs : '$' ∉ s) (hne : s ≠ []) :
    strip_outer_delimiters ('$' :: s ++ oneDollar) = pyStrip s := by
  obtain ⟨a, s', rfl⟩ : ∃ a s', s = a :: s' := by
    cases s with
    | nil => exact absurd rfl hne
    | cons a s' => exact ⟨a, s', rfl⟩
  have ha : a ≠ '$' := fun h => hs (h ▸ List.mem_cons_self a s')
  have hps : pyStrip ('$' :: (a :: s') ++ oneDollar) = '$' :: (a :: s') ++ oneDollar := by
    rw [show ('$' :: (a :: s') ++ oneDollar) = '$' :: (a :: s') ++ ['$'] by simp [oneDollar]]
    exact pyStrip_dollar_wrap (a :: s')
  unfold strip_outer_delimiters
  rw [hps]
  have hpre2 : (twoDollars.isPrefixOf ('$' :: (a :: s') ++ oneDollar)) = false := by
    simp [twoDollars, List.isPrefixOf, beq_eq_false_iff_ne, Ne.symm ha]
  rw [if_neg (by rw [hpre2]; simp)]
  have hpre1 : (oneDollar.isPrefixOf ('$' :: (a :: s') ++ oneDollar)) = true := by
    simp [oneDollar, List.isPrefixOf]
  have hsuf1 : (oneDollar.isSuffixOf ('$' :: (a :: s') ++ oneDollar)) = true := by
    unfold List.isSuffixOf
    rw [show ('$' :: (a :: s') ++ oneDollar).reverse = '$' :: (s'.reverse ++ [a, '$']) by
      simp [oneDollar]]
    simp [oneDollar, List.isPrefixOf]
  have hlen : decide (2 < ('$' :: (a :: s') ++ oneDollar).length) = true := by
    simp [oneDollar]
  rw [if_pos (by rw [hpre1, hsuf1, hlen]; rfl)]
  have hdrop : ('$' :: (a :: s') ++ oneDollar).drop 1 = (a :: s') ++ ['$'] := by
    simp [oneDollar]
  rw [hdrop]
  have htake : pyDropLast 1 ((a :: s') ++ ['$']) = a :: s' := by
    unfold pyDropLast
    rw [show ((a :: s') ++ ['$']).length - 1 = (a :: s').length by simp]
    exact List.take_left (a :: s') ['$']
  rw [htake]

lemma strip_outer_part3 (t : List Char)
    (h : ¬((pyStrip t).head? = some '$' ∧ (pyStrip t).getLast? = some '$')) :
    strip_outer_delimiters t = pyStrip t := by
  unfold strip_outer_delimiters
  rcases not_and_or.1 h with hh | hl
  · have hp2 : (twoDollars.isPrefixOf (pyStrip t)) = false := by
      rw [show twoDollars = '$' :: ['$'] by rfl]
      exact isPrefixOf_cons_false '$' ['$'] (pyStrip t) hh
    have hp1 : (oneDollar.isPrefixOf (pyStrip t)) = false := by
      rw [show oneDollar = '$' :: [] by rfl]
      exact isPrefixOf_cons_false '$' [] (pyStrip t) hh
    rw [if_neg (by rw [hp2]; simp), if_neg (by rw [hp1]; simp)]
  · have hs2 : (twoDollars.isSuffixOf (pyStrip t)) = false := by
      rw [show twoDollars = ['$'] ++ ['$'] by rfl]
      exact isSuffixOf_append_false '$' ['$'] (pyStrip t) hl
    have hs1 : (oneDollar.isSuffixOf (pyStrip t)) = false := by
      rw [show oneDollar = [] ++ ['$'] by rfl]
      exact isSuffixOf_append_false '$' [] (pyStrip t) hl
    rw [if_neg (by rw [hs2]; simp), if_neg (by rw [hs1]; simp)]

-- ── Reduction lemmas for the tool bodies ──────────────────────────────────────

lemma render_latex_ok (oracle : Renderer) (p : RenderLatexInput) (png : List Nat)
    (h : oracle (render_latex_call p) = Except.ok png) :
    render_latex oracle p =
      ([(kSuccess, JVal.jbool true),
        (kDataUri, JVal.jstr (png_to_base64_uri png)),
        (kBase64, JVal.jstr (png_to_base64 png)),
        (kWidthHint, JVal.jstr v600px),
        (kSizeKb, JVal.jnum (sizeKbReported png.length)),
        (kMessage, JVal.jstr (msgRenderLatexOk png.length))], [render_latex_call p]) := by
  simp [render_latex, h]

lemma render_latex_err (oracle : Renderer) (p : RenderLatexInput) (e : List Char)
    (h : oracle (render_latex_call p) = Except.error e) :
    render_latex oracle p =
      ([(kSuccess, JVal.jbool false),
        (kDataUri, JVal.null),
        (kBase64, JVal.null),
        (kMessage, JVal.jstr (msgRenderLatexErr e))], [render_latex_call p]) := by
  simp [render_latex, h]

lemma render_solution_ok (oracle : Renderer) (p : RenderSolutionInput) (png : List Nat)
    (h : oracle (render_solution_call p) = Except.ok png) :
    render_solution oracle p =
      ([(kSuccess, JVal.jbool true),
        (kDataUri, JVal.jstr (png_to_base64_uri png)),
        (kBase64, JVal.jstr (png_to_base64 png)),
        (kStepCount, JVal.jnum (p.steps.length : ℚ)),
        (kSizeKb, JVal.jnum (sizeKbReported png.length)),
        (kMessage, JVal.jstr (msgRenderSolutionOk p.steps.length png.length))],
       [render_solution_call p]) := by
  simp [render_solution, h]

lemma render_solution_err (oracle : Renderer) (p : RenderSolutionInput) (e : List Char)
    (h : oracle (render_solution_call p) = Except.error e) :
    render_solution oracle p =
      ([(kSuccess, JVal.jbool false),
        (kDataUri, JVal.null),
        (kBase64, JVal.null),
        (kStepCount, JVal.jnum 0),
        (kMessage, JVal.jstr (msgRenderSolutionErr e))], [render_solution_call p]) := by
  simp [render_solution, h]

lemma check_tool_empty (oracle : Renderer) (latex : List Char)
    (h : (latex.isEmpty || (pyStrip latex).isEmpty) = true) :
    check_latex_syntax_tool oracle latex = (checkEmptyResponse, []) := by
  simp [check_latex_syntax_tool, h]

lemma check_tool_ok (oracle : Renderer) (latex : List Char) (png : List Nat)
    (hne : (latex.isEmpty || (pyStrip latex).isEmpty) = false)
    (h : oracle (check_call latex) = Except.ok png) :
    check_latex_syntax_tool oracle latex =
      ([(kValid, JVal.jbool (checkErrorsPre latex).isEmpty),
        (kWarnings, JVal.jarr ((checkWarnings latex).map JVal.jstr)),
        (kErrors, JVal.jarr ((checkErrorsPre latex).map JVal.jstr)),
        (kSuggestion, JVal.null)], [check_call latex]) := by
  simp [check_latex_syntax_tool, hne, h]

lemma check_tool_err (oracle : Renderer) (latex : List Char) (e : List Char)
    (hne : (latex.isEmpty || (pyStrip latex).isEmpty) = false)
    (h : oracle (check_call latex) = Except.error e) :
    check_latex_syntax_tool oracle latex =
      ([(kValid, JVal.jbool false),
        (kWarnings, JVal.jarr ((checkWarnings latex).map JVal.jstr)),
        (kErrors, JVal.jarr (((checkErrorsPre latex) ++ [msgRenderTestPre ++ e]).map JVal.jstr)),
        (kSuggestion, JVal.null)], [check_call latex]) := by
  simp [check_latex_syntax_tool, hne, h]

-- ── zip/range helper for multiblock rows ──────────────────────────────────────

lemma zip_map_snd_eq_map {α β : Type} (f : α → β) :
    ∀ (l : List α) (a : List Nat), l.length ≤ a.length →
      ((a.zip l).map (fun pr => f pr.2)) = l.map f := by
  intro l
  induction l with
  | nil => intro a _; simp
  | cons x xs ih =>
    intro a hlen
    cases a with
    | nil => simp at hlen
    | cons n ns =>
      simp only [List.zip_cons_cons, List.map_cons]
      rw [ih ns (by simpa using hlen)]

lemma multiblockRows_eq_map (blocks : List Block) (tc : List Char) :
    multiblockRows blocks tc = blocks.map (mkRow tc) := by
  unfold multiblockRows
  exact zip_map_snd_eq_map (mkRow tc) blocks (List.range blocks.length) (by simp)

-- ── roundHalfEven positivity ──────────────────────────────────────────────────

lemma roundHalfEven_ge_one (q : ℚ) (hq : 1 / 2 < q) : 1 ≤ roundHalfEven q := by
  unfold roundHalfEven
  have hfl : (⌊q⌋ : ℚ) ≤ q := Int.floor_le q
  have hfu : q < ⌊q⌋ + 1 := Int.lt_floor_add_one q
  split_ifs with h1 h2 h3
  · have h0 : (0 : ℚ) < (⌊q⌋ : ℚ) := by linarith
    have : (0 : ℤ) < ⌊q⌋ := by exact_mod_cast h0
    omega
  · have h0 : (-1 : ℚ) < (⌊q⌋ : ℚ) := by linarith
    have : (-1 : ℤ) < ⌊q⌋ := by exact_mod_cast h0
    omega
  · have heq : q - ⌊q⌋ = 1 / 2 := le_antisymm (not_lt.1 h2) (not_lt.1 h1)
    have h0 : (0 : ℚ) < (⌊q⌋ : ℚ) := by linarith
    have : (0 : ℤ) < ⌊q⌋ := by exact_mod_cast h0
    omega
  · have h0 : (-1 : ℚ) < (⌊q⌋ : ℚ) := by linarith
    have : (-1 : ℤ) < ⌊q⌋ := by exact_mod_cast h0
    omega

lemma sizeKbReported_pos (n : Nat) (h : 52 ≤ n) : 0 < sizeKbReported n := by
  unfold sizeKbReported
  have hn : (52 : ℚ) ≤ (n : ℚ) := by exact_mod_cast h
  have hq : (1 : ℚ) / 2 < (n : ℚ) * 10 / 1024 := by
    rw [lt_div_iff₀ (by norm_num : (0 : ℚ) < 1024)]
    linarith
  have h1 := roundHalfEven_ge_one ((n : ℚ) * 10 / 1024) hq
  have h1q : (1 : ℚ) ≤ (roundHalfEven ((n : ℚ) * 10 / 1024) : ℚ) := by exact_mod_cast h1
  linarith

-- ── Validation lemmas ─────────────────────────────────────────────────────────

lemma parse_latex_ok_bounds (raw : RawRenderLatexInput) (p : RenderLatexInput)
    (h : parseRenderLatexInput raw = Except.ok p) :
    1 ≤ (pyStrip raw.latex).length ∧ (pyStrip raw.latex).length ≤ MAX_LATEX_LENGTH
    ∧ 72 ≤ raw.dpi ∧ raw.dpi ≤ 300 ∧ 8 ≤ raw.font_size ∧ raw.font_size ≤ 32 := by
  simp only [parseRenderLatexInput] at h
  split_ifs at h with h1 h2 h3 h4 h5
  all_goals try simp at h
  simp only [Bool.or_eq_true, decide_eq_true_eq, not_or] at h4 h5
  exact ⟨by omega, by omega, by omega, by omega, by omega, by omega⟩

lemma parseSteps_ok_no_bad :
    ∀ (steps : List RawStep) (blocks : List Block), parseSteps steps = Except.ok blocks →
      ∀ st ∈ steps, badStep st = false := by
  intro steps
  induction steps with
  | nil => intro blocks _ st hst; exact absurd hst (List.not_mem_nil st)
  | cons a rest ih =>
    intro blocks h st hst
    cases a with
    | notDict => exact absurd h (by simp [parseSteps, parseStep])
    | aDict b =>
      cases hb : b.latex with
      | none =>
        rw [show parseSteps (RawStep.aDict b :: rest) = Except.error errStepNoLatex by
          simp [parseSteps, parseStep, hb]] at h
        exact absurd h (by simp)
      | some v =>
        rcases List.mem_cons.1 hst with rfl | hmem
        · simp [badStep, hb]
        · simp only [parseSteps, parseStep, hb] at h
          cases hr : parseSteps rest with
          | error e => rw [hr] at h; exact absurd h (by simp)
          | ok bs => exact ih bs hr st hmem

lemma parse_solution_ok_bounds (raw : RawRenderSolutionInput) (p : RenderSolutionInput)
    (h : parseRenderSolutionInput raw = Except.ok p) :
    1 ≤ raw.steps.length ∧ raw.steps.length ≤ 20
    ∧ (∀ st ∈ raw.steps, badStep st = false)
    ∧ 72 ≤ raw.dpi ∧ raw.dpi ≤ 300 ∧ 8 ≤ raw.font_size ∧ raw.font_size ≤ 32 := by
  simp only [parseRenderSolutionInput] at h
  split_ifs at h with h1 h2 h4 h5
  all_goals (cases hps : parseSteps raw.steps <;> (rw [hps] at h; try simp at h))
  simp only [Bool.or_eq_true, decide_eq_true_eq, not_or] at h4 h5
  exact ⟨by omega, by omega, parseSteps_ok_no_bad raw.steps _ hps,
    by omega, by omega, by omega, by omega⟩

-- concrete floor computation for the size_kb counterexample

lemma sizeKbReported_51 : sizeKbReported 51 = 0 := by
  unfold sizeKbReported roundHalfEven
  have h51 : ((51 : Nat) : ℚ) * 10 / 1024 = 255 / 512 := by norm_num
  rw [h51]
  have hf : ⌊(255 / 512 : ℚ)⌋ = 0 := by
    rw [Int.floor_eq_iff]
    norm_num
  rw [hf]
  norm_num

-- ── pyStrip on the oversized counterexample input ─────────────────────────────

lemma pyStrip_replicate_a (n : Nat) : pyStrip (List.replicate n 'a') = List.replicate n 'a' := by
  cases n with
  | zero => rfl
  | succ m =>
    unfold pyStrip lstrip rstrip
    rw [List.replicate_succ]
    rw [dropWhile_cons_nonspace 'a' _ (by decide)]
    rw [show ('a' :: List.replicate m 'a').reverse = 'a' :: List.replicate m 'a' by
      rw [← List.replicate_succ]; exact List.reverse_replicate _ _]
    rw [dropWhile_cons_nonspace 'a' _ (by decide)]
    rw [← List.replicate_succ]
    exact List.reverse_replicate _ _

lemma pyStrip_replicate_a_space (n : Nat) (hn : n ≠ 0) :
    pyStrip (List.replicate n 'a' ++ [' ']) = List.replicate n 'a' := by
  obtain ⟨m, rfl⟩ : ∃ m, n = m + 1 := ⟨n - 1, by omega⟩
  have ha : pyIsSpace 'a' = false := by decide
  have hsp : pyIsSpace ' ' = true := by decide
  unfold pyStrip lstrip rstrip
  rw [List.replicate_succ, List.cons_append]
  rw [dropWhile_cons_nonspace 'a' _ ha]
  rw [show ('a' :: (List.replicate m 'a' ++ [' '])).reverse
      = ' ' :: (List.replicate m 'a' ++ ['a']) by
    simp [List.reverse_replicate]]
  rw [show List.dropWhile pyIsSpace (' ' :: (List.replicate m 'a' ++ ['a']))
      = List.dropWhile pyIsSpace (List.replicate m 'a' ++ ['a']) by
    rw [List.dropWhile_cons, if_pos hsp]]
  rw [show List.dropWhile pyIsSpace (List.replicate m 'a' ++ ['a'])
      = List.replicate m 'a' ++ ['a'] by
    cases m with
    | zero => rw [List.replicate, List.nil_append, List.dropWhile_cons, if_neg (by simp [ha])]
    | succ k =>
      rw [List.replicate_succ, List.cons_append]
      exact dropWhile_cons_nonspace 'a' _ ha]
  rw [show (List.replicate m 'a' ++ ['a']).reverse = 'a' :: List.replicate m 'a' by
    simp [List.reverse_replicate]]

lemma replicate_a_isEmpty_false (n : Nat) (hn : n ≠ 0) :
    (List.replicate n 'a').isEmpty = false := by
  obtain ⟨m, rfl⟩ : ∃ m, n = m + 1 := ⟨n - 1, by omega⟩
  rw [List.replicate_succ]
  rfl

lemma parse_rawOversized :
    parseRenderLatexInput rawOversized =
      Except.ok { latex := List.replicate 10000 'a', theme := Theme.light,
                  dpi := 150, font_size := 14 } := by
  have hstrip : pyStrip rawOversized.latex = List.replicate 10000 'a' :=
    pyStrip_replicate_a_space 10000 (by norm_num)
  have hd : rawOversized.dpi = 150 := rfl
  have hf : rawOversized.font_size = 14 := rfl
  simp only [parseRenderLatexInput, hstrip, List.length_replicate]
  rw [if_neg (by norm_num), if_neg (by decide),
    if_neg (by rw [pyStrip_replicate_a, replicate_a_isEmpty_false 10000 (by norm_num)]; simp),
    if_neg (by rw [hd]; decide), if_neg (by rw [hf]; decide)]
  rfl

/-- C1: a raised rendering exception in render_latex or render_solution is
caught at the call boundary and turned into the structured failure JSON
(success=false, data_uri=null, base64=null, plus a message); exactly one
render attempt is made and nothing is retried. -/
theorem render_tools_catch_exceptions :
    ∀ (oracle : Renderer) (p : RenderLatexInput) (q : RenderSolutionInput) (e₁ e₂ : List Char),
      oracle (render_latex_call p) = Except.error e₁ →
      oracle (render_solution_call q) = Except.error e₂ →
      render_latex oracle p =
        ([(kSuccess, JVal.jbool false), (kDataUri, JVal.null), (kBase64, JVal.null),
          (kMessage, JVal.jstr (msgRenderLatexErr e₁))], [render_latex_call p])
      ∧ render_solution oracle q =
        ([(kSuccess, JVal.jbool false), (kDataUri, JVal.null), (kBase64, JVal.null),
          (kStepCount, JVal.jnum 0), (kMessage, JVal.jstr (msgRenderSolutionErr e₂))],
          [render_solution_call q]) :=
  fun oracle p q e₁ e₂ h₁ h₂ =>
    ⟨render_latex_err oracle p e₁ h₁, render_solution_err oracle q e₂ h₂⟩

/-- Witness for C1: a failing renderer on concrete inputs. -/
theorem render_tools_catch_exceptions_witness :
    render_latex oracleBoom inputX =
      ([(kSuccess, JVal.jbool false), (kDataUri, JVal.null), (kBase64, JVal.null),
        (kMessage, JVal.jstr (msgRenderLatexErr msgBoom))], [render_latex_call inputX])
    ∧ render_solution oracleBoom inputSolution =
      ([(kSuccess, JVal.jbool false), (kDataUri, JVal.null), (kBase64, JVal.null),
        (kStepCount, JVal.jnum 0), (kMessage, JVal.jstr (msgRenderSolutionErr msgBoom))],
        [render_solution_call inputSolution]) :=
  render_tools_catch_exceptions oracleBoom inputX inputSolution msgBoom msgBoom rfl rfl

/-- C2 (amended): requests out of the declared bounds are rejected by
validation before any render call is made; the latex length bound is
checked on the whitespace-stripped string (str_strip_whitespace). -/
theorem validation_rejects_out_of_range :
    ∀ (oracle : Renderer) (raw : RawRenderLatexInput) (raws : RawRenderSolutionInput),
      (((pyStrip raw.latex).length < 1 ∨ MAX_LATEX_LENGTH < (pyStrip raw.latex).length
          ∨ raw.dpi < 72 ∨ 300 < raw.dpi ∨ raw.font_size < 8 ∨ 32 < raw.font_size) →
        ∃ e, endpointRenderLatex oracle raw = (Except.error e, []))
      ∧ ((raws.steps.length < 1 ∨ 20 < raws.steps.length
          ∨ (∃ st ∈ raws.steps, badStep st = true)
          ∨ raws.dpi < 72 ∨ 300 < raws.dpi ∨ raws.font_size < 8 ∨ 32 < raws.font_size) →
        ∃ e, endpointRenderSolution oracle raws = (Except.error e, [])) := by
  intro oracle raw raws
  constructor
  · intro h
    cases hp : parseRenderLatexInput raw with
    | error e => exact ⟨e, by simp [endpointRenderLatex, hp]⟩
    | ok p =>
      exfalso
      obtain ⟨b1, b2, b3, b4, b5, b6⟩ := parse_latex_ok_bounds raw p hp
      rcases h with h | h | h | h | h | h <;> omega
  · intro h
    cases hp : parseRenderSolutionInput raws with
    | error e => exact ⟨e, by simp [endpointRenderSolution, hp]⟩
    | ok p =>
      exfalso
      obtain ⟨b1, b2, bsteps, b4, b5, b6, b7⟩ := parse_solution_ok_bounds raws p hp
      rcases h with h | h | ⟨st, hmem, hbad⟩ | h | h | h | h
      · omega
      · omega
      · rw [bsteps st hmem] at hbad
        exact absurd hbad (by simp)
      · omega
      · omega
      · omega
      · omega

/-- Witness for C2 (amended): dpi 0 is rejected; an empty steps list is
rejected. -/
theorem validation_rejects_witness :
    (∃ e, endpointRenderLatex oracle100 rawBadDpi = (Except.error e, []))
    ∧ (∃ e, endpointRenderSolution oracle100 rawNoSteps = (Except.error e, [])) :=
  ⟨(validation_rejects_out_of_range oracle100 rawBadDpi rawNoSteps).1
      (Or.inr (Or.inr (Or.inl (by decide)))),
   (validation_rejects_out_of_range oracle100 rawBadDpi rawNoSteps).2
      (Or.inl (by decide))⟩

/-- C2 counterexample: a raw latex string of 10,001 characters (10,000 `a`
plus one trailing space) is accepted, because the string is stripped before
the length bound is checked; the claim says every string longer than
10,000 characters is rejected. -/
theorem oversized_latex_accepted :
    rawOversized.latex.length = 10001
    ∧ parseRenderLatexInput rawOversized =
        Except.ok { latex := List.replicate 10000 'a', theme := Theme.light,
                    dpi := 150, font_size := 14 } := by
  constructor
  · show (List.replicate 10000 'a' ++ [' ']).length = 10001
    rw [List.length_append, List.length_replicate, List.length_singleton]
  · exact parse_rawOversized

/-- Every check_latex_syntax response has exactly the shape
valid/warnings/errors/suggestion. -/
lemma check_response_shape (oracle : Renderer) (latex : List Char) :
    ∃ b ws es, (check_latex_syntax_tool oracle latex).1 =
      [(kValid, JVal.jbool b), (kWarnings, JVal.jarr ws),
       (kErrors, JVal.jarr es), (kSuggestion, JVal.null)] := by
  by_cases hemp : (latex.isEmpty || (pyStrip latex).isEmpty) = true
  · refine ⟨false, [], [JVal.jstr msgEmptyExpr], ?_⟩
    rw [check_tool_empty oracle latex hemp]
    exact rfl
  · have hne : (latex.isEmpty || (pyStrip latex).isEmpty) = false := by
      revert hemp
      cases latex.isEmpty || (pyStrip latex).isEmpty <;> simp
    cases ho : oracle (check_call latex) with
    | ok png =>
      exact ⟨(checkErrorsPre latex).isEmpty, (checkWarnings latex).map JVal.jstr,
        (checkErrorsPre latex).map JVal.jstr, by rw [check_tool_ok oracle latex png hne ho]⟩
    | error e =>
      exact ⟨false, (checkWarnings latex).map JVal.jstr,
        ((checkErrorsPre latex) ++ [msgRenderTestPre ++ e]).map JVal.jstr,
        by rw [check_tool_err oracle latex e hne ho]⟩

/-- C3 (amended): render_latex and render_solution responses always carry a
boolean success flag and a string message, and on success the image as both
base64 and data URI; check_latex_syntax instead returns
valid/warnings/errors/suggestion, with no success flag, no message and no
image fields. -/
theorem response_envelope_spec :
    ∀ (oracle : Renderer) (p : RenderLatexInput) (q : RenderSolutionInput) (latex : List Char),
      (∃ b m, jget (render_latex oracle p).1 kSuccess = some (JVal.jbool b)
        ∧ jget (render_latex oracle p).1 kMessage = some (JVal.jstr m))
      ∧ (∃ b m, jget (render_solution oracle q).1 kSuccess = some (JVal.jbool b)
        ∧ jget (render_solution oracle q).1 kMessage = some (JVal.jstr m))
      ∧ (∀ png, oracle (render_latex_call p) = Except.ok png →
          jget (render_latex oracle p).1 kDataUri = some (JVal.jstr (png_to_base64_uri png))
          ∧ jget (render_latex oracle p).1 kBase64 = some (JVal.jstr (png_to_base64 png)))
      ∧ (∀ png, oracle (render_solution_call q) = Except.ok png →
          jget (render_solution oracle q).1 kDataUri = some (JVal.jstr (png_to_base64_uri png))
          ∧ jget (render_solution oracle q).1 kBase64 = some (JVal.jstr (png_to_base64 png)))
      ∧ (∃ b ws es, jget (check_latex_syntax_tool oracle latex).1 kValid = some (JVal.jbool b)
          ∧ jget (check_latex_syntax_tool oracle latex).1 kWarnings = some (JVal.jarr ws)
          ∧ jget (check_latex_syntax_tool oracle latex).1 kErrors = some (JVal.jarr es)
          ∧ jget (check_latex_syntax_tool oracle latex).1 kSuggestion = some JVal.null)
      ∧ jget (check_latex_syntax_tool oracle latex).1 kSuccess = none
      ∧ jget (check_latex_syntax_tool oracle latex).1 kMessage = none := by
  intro oracle p q latex
  obtain ⟨b, ws, es, hshape⟩ := check_response_shape oracle latex
  refine ⟨?_, ?_, ?_, ?_, ⟨b, ws, es, ?_, ?_, ?_, ?_⟩, ?_, ?_⟩
  · cases ho : oracle (render_latex_call p) with
    | ok png => rw [render_latex_ok oracle p png ho]; exact ⟨true, _, rfl, rfl⟩
    | error e => rw [render_latex_err oracle p e ho]; exact ⟨false, _, rfl, rfl⟩
  · cases ho : oracle (render_solution_call q) with
    | ok png => rw [render_solution_ok oracle q png ho]; exact ⟨true, _, rfl, rfl⟩
    | error e => rw [render_solution_err oracle q e ho]; exact ⟨false, _, rfl, rfl⟩
  · intro png ho
    rw [render_latex_ok oracle p png ho]
    exact ⟨rfl, rfl⟩
  · intro png ho
    rw [render_solution_ok oracle q png ho]
    exact ⟨rfl, rfl⟩
  · rw [hshape]; exact rfl
  · rw [hshape]; exact rfl
  · rw [hshape]; exact rfl
  · rw [hshape]; exact rfl
  · rw [hshape]; exact rfl
  · rw [hshape]; exact rfl

/-- Witness for C3 (amended): concrete successful render carries the images. -/
theorem response_envelope_spec_witness :
    jget (render_latex oracle100 inputX).1 kDataUri
        = some (JVal.jstr (png_to_base64_uri pngBytes100))
    ∧ jget (render_latex oracle100 inputX).1 kBase64
        = some (JVal.jstr (png_to_base64 pngBytes100)) :=
  (response_envelope_spec oracle100 inputX inputSolution ['x']).2.2.1 pngBytes100 rfl

/-- C3 counterexample: the check_latex_syntax response contains neither a
success flag nor a message nor image fields, contradicting the claim that
every tool response carries them. -/
theorem check_response_lacks_success_and_message :
    jget (check_latex_syntax_tool oracle100 ['x']).1 kSuccess = none
    ∧ jget (check_latex_syntax_tool oracle100 ['x']).1 kMessage = none
    ∧ jget (check_latex_syntax_tool oracle100 ['x']).1 kBase64 = none
    ∧ jget (check_latex_syntax_tool oracle100 ['x']).1 kDataUri = none :=
  ⟨rfl, rfl, rfl, rfl⟩

/-- C4: every invocation is stateless and deterministic: the response of each
tool does not depend on the process state (matplotlib figure registry,
logging) left by earlier calls, the response sequence of any request list
is the pointwise independent handling of the requests, and two identical
back-to-back render_latex calls yield identical responses (hence identical
success flags). -/
theorem tools_stateless_and_deterministic :
    ∀ (oracle : Renderer) (s₁ s₂ : ServerState) (reqs : List ToolRequest) (p : RenderLatexInput),
      (∀ r, (handleRequest oracle s₁ r).1 = (handleRequest oracle s₂ r).1)
      ∧ processSeq oracle s₁ reqs = reqs.map (fun r => (dispatch oracle r).1)
      ∧ processSeq oracle s₁ [ToolRequest.renderLatex p, ToolRequest.renderLatex p]
          = [(render_latex oracle p).1, (render_latex oracle p).1] := by
  intro oracle s₁ s₂ reqs p
  have hmap : ∀ (rs : List ToolRequest) (s : ServerState),
      processSeq oracle s rs = rs.map (fun r => (dispatch oracle r).1) := by
    intro rs
    induction rs with
    | nil => intro s; rfl
    | cons r rest ih =>
      intro s
      simp only [processSeq, List.map_cons]
      rw [ih]
      exact rfl
  exact ⟨fun r => rfl, hmap reqs s₁, by rw [hmap]; exact rfl⟩

/-- C5: for a valid steps list of length n, a successful render_solution call
builds one stacked figure with exactly n rows, one per step in input
order, renders it in a single call, and reports step_count = n. -/
theorem render_solution_rows_spec :
    ∀ (oracle : Renderer) (p : RenderSolutionInput) (png : List Nat),
      1 ≤ p.steps.length → p.steps.length ≤ 20 →
      oracle (render_solution_call p) = Except.ok png →
      jget (render_solution oracle p).1 kStepCount = some (JVal.jnum (p.steps.length : ℚ))
      ∧ jget (render_solution oracle p).1 kSuccess = some (JVal.jbool true)
      ∧ (render_solution oracle p).2 = [render_solution_call p]
      ∧ (render_solution_call p).fig =
          FigSpec.stacked 8 ((5 / 2 : ℚ) * p.steps.length)
            (p.steps.map (mkRow (apply_theme p.theme).2)) := by
  intro oracle p png h1 h2 ho
  rw [render_solution_ok oracle p png ho]
  refine ⟨rfl, rfl, rfl, ?_⟩
  show FigSpec.stacked 8 ((5 / 2 : ℚ) * p.steps.length)
      (multiblockRows p.steps (apply_theme p.theme).2) = _
  rw [multiblockRows_eq_map]

/-- Witness for C5: a concrete two-step solution. -/
theorem render_solution_rows_spec_witness :
    jget (render_solution oracle100 inputSolution).1 kStepCount
        = some (JVal.jnum (inputSolution.steps.length : ℚ))
    ∧ jget (render_solution oracle100 inputSolution).1 kSuccess = some (JVal.jbool true)
    ∧ (render_solution oracle100 inputSolution).2 = [render_solution_call inputSolution]
    ∧ (render_solution_call inputSolution).fig =
        FigSpec.stacked 8 ((5 / 2 : ℚ) * inputSolution.steps.length)
          (inputSolution.steps.map (mkRow (apply_theme inputSolution.theme).2)) :=
  render_solution_rows_spec oracle100 inputSolution pngBytes100 (by decide) (by decide) rfl

/-- C6 (amended): the composition logic arranges the rows on a canvas sized
(8, 2.5 n), but every row — the final answer row included — is drawn in
the same text color; no distinct highlight color is applied. -/
theorem multiblock_uniform_color :
    ∀ (blocks : List Block) (dpi font_size : Int) (bg text_color : List Char) (r : RowSpec),
      r ∈ multiblockRows blocks text_color →
      r.color = text_color
      ∧ (render_multiblock_call blocks dpi font_size bg text_color).fig =
          FigSpec.stacked 8 ((5 / 2 : ℚ) * blocks.length) (multiblockRows blocks text_color) := by
  intro blocks dpi font_size bg tc r hr
  refine ⟨?_, rfl⟩
  rw [multiblockRows_eq_map] at hr
  obtain ⟨b, _, rfl⟩ := List.mem_map.1 hr
  rfl

/-- Witness for C6 (amended): concrete one-block figure. -/
theorem multiblock_uniform_color_witness :
    (mkRow colorBlack blockStep1).color = colorBlack
    ∧ (render_multiblock_call [blockStep1] 150 14 colorWhite colorBlack).fig =
        FigSpec.stacked 8 ((5 / 2 : ℚ) * ([blockStep1] : List Block).length)
          (multiblockRows [blockStep1] colorBlack) :=
  multiblock_uniform_color [blockStep1] 150 14 colorWhite colorBlack
    (mkRow colorBlack blockStep1)
    (by rw [multiblockRows_eq_map]; exact List.mem_cons_self _ _)

/-- C6 counterexample: in a two-step figure the last (answer) row is drawn in
exactly the same color as the other row, refuting the claimed distinct
highlight color for the final row. -/
theorem multiblock_no_highlight_color :
    ((multiblockRows [blockStep1, blockAnswer] colorBlack).getD 1 (mkRow [] blockStep1)).color
      = ((multiblockRows [blockStep1, blockAnswer] colorBlack).getD 0 (mkRow [] blockStep1)).color
    ∧ (multiblockRows [blockStep1, blockAnswer] colorBlack).length = 2 :=
  ⟨rfl, rfl⟩

/-- C7 (amended): on a successful render the response reports
size_kb = round(len/1024, 1), which is strictly positive whenever the PNG
is at least 52 bytes (as any real PNG is); the positivity of the byte
length itself is a property of the external renderer, and a hypothetical
positive length of at most 51 bytes would be reported as 0.0. -/
theorem size_kb_positive :
    ∀ (oracle : Renderer) (p : RenderLatexInput) (png : List Nat),
      oracle (render_latex_call p) = Except.ok png →
      52 ≤ png.length →
      jget (render_latex oracle p).1 kSizeKb = some (JVal.jnum (sizeKbReported png.length))
      ∧ 0 < sizeKbReported png.length := by
  intro oracle p png ho hlen
  rw [render_latex_ok oracle p png ho]
  exact ⟨rfl, sizeKbReported_pos png.length hlen⟩

/-- Witness for C7 (amended): a 100-byte PNG reports a positive size. -/
theorem size_kb_positive_witness :
    jget (render_latex oracle100 inputX).1 kSizeKb
        = some (JVal.jnum (sizeKbReported pngBytes100.length))
    ∧ 0 < sizeKbReported pngBytes100.length :=
  size_kb_positive oracle100 inputX pngBytes100 rfl (by decide)

/-- C7 counterexample: a successful render whose PNG has positive length 51
reports size_kb = 0.0, so positive byte length does not imply a strictly
positive reported size_kb. -/
theorem size_kb_zero_with_positive_png :
    jget (render_latex oracle51 inputX).1 kSuccess = some (JVal.jbool true)
    ∧ jget (render_latex oracle51 inputX).1 kSizeKb = some (JVal.jnum 0)
    ∧ 0 < pngBytes51.length := by
  refine ⟨rfl, ?_, by decide⟩
  have h : jget (render_latex oracle51 inputX).1 kSizeKb
      = some (JVal.jnum (sizeKbReported 51)) := rfl
  rw [h, sizeKbReported_51]

/-- C8: the data URI is always the literal prefix `data:image/png;base64,`
followed by the raw base64 string, both as functions and inside every
successful response of the two render tools. -/
theorem png_data_uri_relation :
    (∀ b : List Nat, png_to_base64_uri b = dataUriPre ++ png_to_base64 b)
    ∧ (∀ (oracle : Renderer) (p : RenderLatexInput) (png : List Nat),
        oracle (render_latex_call p) = Except.ok png →
        jget (render_latex oracle p).1 kDataUri
            = some (JVal.jstr (dataUriPre ++ png_to_base64 png))
        ∧ jget (render_latex oracle p).1 kBase64 = some (JVal.jstr (png_to_base64 png)))
    ∧ (∀ (oracle : Renderer) (q : RenderSolutionInput) (png : List Nat),
        oracle (render_solution_call q) = Except.ok png →
        jget (render_solution oracle q).1 kDataUri
            = some (JVal.jstr (dataUriPre ++ png_to_base64 png))
        ∧ jget (render_solution oracle q).1 kBase64 = some (JVal.jstr (png_to_base64 png))) := by
  refine ⟨fun b => rfl, ?_, ?_⟩
  · intro oracle p png ho
    rw [render_latex_ok oracle p png ho]
    exact ⟨rfl, rfl⟩
  · intro oracle q png ho
    rw [render_solution_ok oracle q png ho]
    exact ⟨rfl, rfl⟩

/-- Witness for C8: concrete successful render. -/
theorem png_data_uri_relation_witness :
    jget (render_latex oracle100 inputX).1 kDataUri
        = some (JVal.jstr (dataUriPre ++ png_to_base64 pngBytes100))
    ∧ jget (render_latex oracle100 inputX).1 kBase64
        = some (JVal.jstr (png_to_base64 pngBytes100)) :=
  png_data_uri_relation.2.1 oracle100 inputX pngBytes100 rfl

/-- C9: delimiter stripping at the public interface: `$$s$$` and (for
nonempty s) `$s$` both strip to s.strip() when s has no dollar sign, a
string whose stripped form does not both begin and end with a dollar sign
is only whitespace-stripped, and `$x$`, `$$x$$` and `x` all reach the
renderer as the same raw expression. -/
theorem strip_outer_delimiters_spec :
    (∀ s : List Char, '$' ∉ s →
      strip_outer_delimiters ('$' :: '$' :: s ++ twoDollars) = pyStrip s)
    ∧ (∀ s : List Char, '$' ∉ s → s ≠ [] →
      strip_outer_delimiters ('$' :: s ++ oneDollar) = pyStrip s)
    ∧ (∀ t : List Char,
        ¬((pyStrip t).head? = some '$' ∧ (pyStrip t).getLast? = some '$') →
        strip_outer_delimiters t = pyStrip t)
    ∧ strip_outer_delimiters ('$' :: 'x' :: oneDollar) = strip_outer_delimiters ['x']
    ∧ strip_outer_delimiters ('$' :: '$' :: 'x' :: twoDollars) = strip_outer_delimiters ['x']
    ∧ renderedText ('$' :: 'x' :: oneDollar) = renderedText ['x']
    ∧ renderedText ('$' :: '$' :: 'x' :: twoDollars) = renderedText ['x'] :=
  ⟨strip_outer_part1, strip_outer_part2, strip_outer_part3,
   by decide, by decide, by decide, by decide⟩

/-- Witness for C9: the quantified parts applied at `x`. -/
theorem strip_outer_delimiters_spec_witness :
    strip_outer_delimiters ('$' :: '$' :: ['x'] ++ twoDollars) = pyStrip ['x']
    ∧ strip_outer_delimiters ('$' :: ['x'] ++ oneDollar) = pyStrip ['x']
    ∧ strip_outer_delimiters ['x'] = pyStrip ['x'] :=
  ⟨strip_outer_delimiters_spec.1 ['x'] (by decide),
   strip_outer_delimiters_spec.2.1 ['x'] (by decide) (by decide),
   strip_outer_delimiters_spec.2.2.1 ['x'] (by decide)⟩

/-- C10: check_latex_syntax returns the fixed empty-expression failure with no
render attempt on empty or whitespace-only input, and on any non-empty
input with an odd number of dollar signs it reports valid=false with the
unbalanced-delimiter message in its errors list, whether or not the test
render succeeds. -/
theorem check_syntax_edge_behaviour :
    ∀ (oracle : Renderer) (latex : List Char),
      ((latex.isEmpty || (pyStrip latex).isEmpty) = true →
        check_latex_syntax_tool oracle latex = (checkEmptyResponse, []))
      ∧ ((latex.isEmpty || (pyStrip latex).isEmpty) = false →
          latex.count '$' % 2 = 1 →
          jget (check_latex_syntax_tool oracle latex).1 kValid = some (JVal.jbool false)
          ∧ ∃ es, jget (check_latex_syntax_tool oracle latex).1 kErrors
                = some (JVal.jarr es) ∧ JVal.jstr msgUnbalanced ∈ es) := by
  intro oracle latex
  constructor
  · exact check_tool_empty oracle latex
  · intro hne hodd
    have hmem : msgUnbalanced ∈ checkErrorsPre latex := by
      unfold checkErrorsPre
      have hif : (if latex.count '$' % 2 ≠ 0 then [msgUnbalanced] else []) = [msgUnbalanced] := by
        rw [if_pos]; omega
      refine List.mem_append.2 (Or.inl (List.mem_append.2 (Or.inr ?_)))
      rw [hif]
      exact List.mem_singleton.2 rfl
    have hie : (checkErrorsPre latex).isEmpty = false := by
      cases hl : checkErrorsPre latex with
      | nil => rw [hl] at hmem; exact absurd hmem (List.not_mem_nil _)
      | cons a as => rfl
    cases ho : oracle (check_call latex) with
    | ok png =>
      rw [check_tool_ok oracle latex png hne ho]
      constructor
      · show some (JVal.jbool (checkErrorsPre latex).isEmpty) = some (JVal.jbool false)
        rw [hie]
      · exact ⟨(checkErrorsPre latex).map JVal.jstr, rfl, List.mem_map_of_mem _ hmem⟩
    | error e =>
      rw [check_tool_err oracle latex e hne ho]
      exact ⟨rfl, ((checkErrorsPre latex) ++ [msgRenderTestPre ++ e]).map JVal.jstr, rfl,
        List.mem_map_of_mem _ (List.mem_append.2 (Or.inl hmem))⟩


/-- Witness for C10: empty input and a concrete unbalanced input. -/
theorem check_syntax_edge_witness :
    check_latex_syntax_tool oracle100 [] = (checkEmptyResponse, [])
    ∧ (jget (check_latex_syntax_tool oracle100 latexUnbalanced).1 kValid
          = some (JVal.jbool false)
        ∧ ∃ es, jget (check_latex_syntax_tool oracle100 latexUnbalanced).1 kErrors
              = some (JVal.jarr es) ∧ JVal.jstr msgUnbalanced ∈ es) :=
  ⟨(check_syntax_edge_behaviour oracle100 []).1 rfl,
   (check_syntax_edge_behaviour oracle100 latexUnbalanced).2 (by decide) (by decide)⟩
